import Mathlib

/-!
Shallow embedding of the `aws-cloud-controller` application core
(`src/app/state.rs`, `src/app/actions.rs`, `src/app/handlers.rs`,
`src/settings.rs`, `src/config/mod.rs`, `src/logger/mod.rs`).

Modelling conventions:
* Timestamps (`chrono::DateTime<Utc>`) are `Int` milliseconds since the epoch;
  `chrono::Duration::num_seconds/num_minutes/num_hours` truncate toward zero,
  modelled with `Int.tdiv`; Rust's `%` on `i64` is `Int.tmod`.
* `std::time::Duration` values are `Nat` seconds (the code only ever uses
  whole-second durations and reads them back with `as_secs`).
* Rust `u16`/`u64` arithmetic is `Nat` with explicit `% 2^w` masking where the
  source can wrap, and `Nat` subtraction where the source saturates.
* The AWS client, the async channel, the table-state mirror and the terminal
  are external; fallible client calls are supplied as `Except String _`
  oracle values, and two ghost fields (`issued_calls`, `sounds_played`)
  record the externally visible effects (client calls issued, alert sounds
  triggered).  Log entries are kept without their timestamps.
-/

/-- `chrono::Duration::num_seconds` on a millisecond count (truncates toward zero). -/
def numSeconds (ms : Int) : Int := ms.tdiv 1000

/-- `chrono::Duration::num_minutes` (truncates toward zero). -/
def numMinutes (ms : Int) : Int := ms.tdiv 60000

/-- `chrono::Duration::num_hours` (truncates toward zero). -/
def numHours (ms : Int) : Int := ms.tdiv 3600000

/-- `l₂` starts with `l₁` (helper for Rust `str::contains`). -/
def charListLeads : List Char → List Char → Bool
  | [], _ => true
  | _ :: _, [] => false
  | p :: ps, h :: hs => p == h && charListLeads ps hs

/-- Rust `str::contains`: `pat` occurs as a contiguous substring of `hay`. -/
def charListHas (hay pat : List Char) : Bool :=
  match hay with
  | [] => charListLeads pat []
  | _ :: t => charListLeads pat hay || charListHas t pat

/-- Rust `hay.contains(pat)` on strings. -/
def rustContains (hay pat : String) : Bool := charListHas hay.data pat.data

/-- Rust `str::to_lowercase` (all strings involved are ASCII). -/
def lowerAscii (s : String) : String := ⟨s.data.map Char.toLower⟩

/-- `format_duration` from `src/app/actions.rs` (on milliseconds). -/
def format_duration (ms : Int) : String :=
  let hours := numHours ms
  let minutes := (numMinutes ms).tmod 60
  toString hours ++ "h " ++ toString minutes ++ "m"

/-- `chrono::Duration::from_std` on a whole-second `std::time::Duration`:
errors when the duration exceeds `i64::MAX` milliseconds. -/
def durationFromStdSecs (secs : Nat) : Option Int :=
  if (secs : Int) * 1000 ≤ 2 ^ 63 - 1 then some ((secs : Int) * 1000) else none

/-- `LogLevel` from `src/logger/mod.rs`. -/
inductive LogLevel where
  | Debug | Info | Success | Warning | Error
  deriving Repr, DecidableEq

/-- `Screen` from `src/app/state.rs`. -/
inductive Screen where
  | Home | Ec2 | Lambda | Logs | About
  deriving Repr, DecidableEq

/-- `Dialog` from `src/app/state.rs`. -/
inductive Dialog where
  | None | Help | Setup | Settings | SessionExpired
  | ConfirmTerminate (instance_id : String)
  | ScheduleAutoStop (instance_id : String)
  | Alert (message : String)
  | ConfigureAws | Changelog
  deriving Repr, DecidableEq

/-- `ToastType` from `src/app/state.rs`. -/
inductive ToastType where
  | Success | Error | Info
  deriving Repr, DecidableEq

/-- `Toast` from `src/app/state.rs` (`created_at` in ms). -/
structure Toast where
  message : String
  toast_type : ToastType
  created_at : Int
  deriving Repr, DecidableEq

/-- `Ec2Instance` from `src/aws/mod.rs` (timestamps in ms). -/
structure Ec2Instance where
  id : String
  name : String
  instance_type : String
  state : String
  public_ip : Option String
  private_ip : Option String
  launch_time : Option Int
  auto_stop_scheduled : Option Int
  deriving Repr, DecidableEq

/-- `LambdaFunction` from `src/aws/mod.rs`. -/
structure LambdaFunction where
  name : String
  runtime : String
  memory : Int
  last_modified : String
  description : String
  deriving Repr, DecidableEq

/-- `SettingsField` from `src/settings.rs`. -/
inductive SettingsField where
  | RefreshInterval | ShowLogsPanel | LogLevel | AlertThreshold | SoundEnabled | TestSound
  deriving Repr, DecidableEq

/-- `SettingsField::next`. -/
def SettingsField.next : SettingsField → SettingsField
  | .RefreshInterval => .ShowLogsPanel
  | .ShowLogsPanel => .LogLevel
  | .LogLevel => .AlertThreshold
  | .AlertThreshold => .SoundEnabled
  | .SoundEnabled => .TestSound
  | .TestSound => .RefreshInterval

/-- `SettingsField::prev`. -/
def SettingsField.prev : SettingsField → SettingsField
  | .RefreshInterval => .TestSound
  | .ShowLogsPanel => .RefreshInterval
  | .LogLevel => .ShowLogsPanel
  | .AlertThreshold => .LogLevel
  | .SoundEnabled => .AlertThreshold
  | .TestSound => .SoundEnabled

/-- `Settings` from `src/settings.rs`. -/
structure Settings where
  refresh_interval_secs : Nat
  show_logs_panel : Bool
  log_level : LogLevel
  alert_threshold_secs : Nat
  sound_enabled : Bool
  deriving Repr, DecidableEq

/-- `Settings::default`. -/
def Settings.default : Settings :=
  { refresh_interval_secs := 60
    show_logs_panel := false
    log_level := .Info
    alert_threshold_secs := 3600
    sound_enabled := true }

/-- `Settings::refresh_interval` (a `std::time::Duration`, kept in seconds). -/
def Settings.refresh_interval (s : Settings) : Nat := s.refresh_interval_secs

/-- `Settings::cycle_refresh_interval`. -/
def Settings.cycle_refresh_interval (s : Settings) (forward : Bool) : Settings :=
  let INTERVALS : List Nat := [15, 30, 60, 120, 300]
  let current_idx := (INTERVALS.findIdx? (· = s.refresh_interval_secs)).getD 2
  let new_idx :=
    if forward then (current_idx + 1) % INTERVALS.length
    else if current_idx = 0 then INTERVALS.length - 1 else current_idx - 1
  { s with refresh_interval_secs := INTERVALS.getD new_idx 0 }

/-- `Settings::cycle_alert_threshold`. -/
def Settings.cycle_alert_threshold (s : Settings) (forward : Bool) : Settings :=
  let THRESHOLDS : List Nat := [1800, 3600, 7200, 14400, 28800]
  let current_idx := (THRESHOLDS.findIdx? (· = s.alert_threshold_secs)).getD 1
  let new_idx :=
    if forward then (current_idx + 1) % THRESHOLDS.length
    else if current_idx = 0 then THRESHOLDS.length - 1 else current_idx - 1
  { s with alert_threshold_secs := THRESHOLDS.getD new_idx 0 }

/-- `Settings::toggle_logs_panel`. -/
def Settings.toggle_logs_panel (s : Settings) : Settings :=
  { s with show_logs_panel := !s.show_logs_panel }

/-- `Settings::toggle_sound`. -/
def Settings.toggle_sound (s : Settings) : Settings :=
  { s with sound_enabled := !s.sound_enabled }

/-- `Settings::cycle_log_level`. -/
def Settings.cycle_log_level (s : Settings) (forward : Bool) : Settings :=
  { s with log_level :=
      if forward then
        match s.log_level with
        | .Debug => .Info
        | .Info => .Warning
        | .Warning => .Error
        | .Error => .Debug
        | .Success => .Info
      else
        match s.log_level with
        | .Debug => .Error
        | .Info => .Debug
        | .Warning => .Info
        | .Error => .Warning
        | .Success => .Info }

/-- `AlertConfig` from `src/config/mod.rs` (`alert_threshold` in seconds). -/
structure AlertConfig where
  alert_threshold : Nat
  sound_enabled : Bool
  slack_webhook_url : Option String
  deriving Repr, DecidableEq

/-- `AlertConfig::default`. -/
def AlertConfig.default : AlertConfig :=
  { alert_threshold := 3600, sound_enabled := true, slack_webhook_url := none }

/-- `AppConfig` from `src/config/mod.rs`. -/
structure AppConfig where
  aws_region : Option String
  alerts : AlertConfig
  tick_rate_ms : Nat
  deriving Repr, DecidableEq

/-- `AppConfig::default`. -/
def AppConfig.default : AppConfig :=
  { aws_region := none, alerts := AlertConfig.default, tick_rate_ms := 250 }

/-- `AppEvent` from the event module (as consumed by `src/app/handlers.rs`,
which additionally matches a `ShowChangelog` variant). -/
inductive AppEvent where
  | Quit
  | NavigateTab (idx : Nat)
  | Up | Down | Enter
  | Start | Stop | Terminate | Refresh | Schedule
  | ShowHelp | OpenSettings
  | ModifySettingValue (delta : Int)
  | CancelSettings
  | Resize (w h : Nat)
  | ConfigureAws | SsoLogin | ShowChangelog | None
  deriving Repr, DecidableEq

/-- `App` from `src/app/state.rs`.  The AWS client, async channel endpoints and
the ratatui `TableState` mirror are external handles and are not part of the
modelled state; `issued_calls` and `sounds_played` are ghost fields recording
the client calls issued and the fire-and-forget alert sounds triggered. -/
structure App where
  config : AppConfig
  should_quit : Bool
  current_screen : Screen
  aws_configured : Bool
  status_message : String
  is_loading : Bool
  scroll_offset : Nat
  ec2_instances : List Ec2Instance
  ec2_selected : Nat
  auto_stop_schedules : List (String × Int)
  lambda_functions : List LambdaFunction
  lambda_selected : Nat
  dialog : Dialog
  pending_alerts : List String
  last_alert_check : Option Int
  last_refresh : Option Int
  auto_refresh_interval : Nat
  boost_refresh_until_stable : Bool
  toasts : List Toast
  window_size : Nat × Nat
  dialog_scroll_offset : Nat
  settings : Settings
  settings_selected_field : SettingsField
  settings_draft : Option Settings
  log : List (LogLevel × String)
  available_profiles : List String
  selected_profile_index : Nat
  active_profile_name : Option String
  issued_calls : List String
  sounds_played : Nat
  deriving Repr, DecidableEq

/-- `LogManager::log` from `src/logger/mod.rs` (entries kept without their
timestamps; the 1000-entry cap drains the oldest entries). -/
def App.log_push (a : App) (level : LogLevel) (message : String) : App :=
  let entries := a.log ++ [(level, message)]
  { a with log := if entries.length > 1000 then entries.drop (entries.length - 1000) else entries }

/-- Ghost record of a client call / spawned external operation. -/
def App.issue (a : App) (call : String) : App :=
  { a with issued_calls := a.issued_calls ++ [call] }

/-- `play_alert_sound` from `src/app/actions.rs` (fire-and-forget; ghost count). -/
def App.play_alert_sound (a : App) : App :=
  { a with sounds_played := a.sounds_played + 1 }

/-- `App::add_toast`. -/
def App.add_toast (a : App) (message : String) (toast_type : ToastType) (now : Int) : App :=
  { a with toasts := a.toasts ++ [{ message := message, toast_type := toast_type, created_at := now }] }

/-- `App::cleanup_old_toasts`: remove toasts older than 5 seconds. -/
def App.cleanup_old_toasts (a : App) (now : Int) : App :=
  { a with toasts := a.toasts.filter (fun toast => numSeconds (now - toast.created_at) < 5) }

/-- `App::is_session_expired_error`. -/
def is_session_expired_error (error_msg : String) : Bool :=
  let error_lower := lowerAscii error_msg
  rustContains error_lower "expiredtoken" ||
  rustContains error_lower "expired token" ||
  rustContains error_lower "token is expired" ||
  rustContains error_lower "security token" ||
  rustContains error_lower "invalidtoken" ||
  rustContains error_lower "invalid token" ||
  rustContains error_lower "credentials have expired" ||
  rustContains error_lower "the security token included in the request is expired" ||
  rustContains error_lower "requestexpired" ||
  rustContains error_lower "request has expired" ||
  rustContains error_lower "authfailure"

/-- `App::refresh_data`.  The two possible client-call results are supplied as
oracle values (`ec2Res` for `list_ec2_instances`, `lamRes` for
`list_lambda_functions`); `now` stamps `last_refresh`. -/
def App.refresh_data (a : App) (now : Int)
    (ec2Res : Except String (List Ec2Instance))
    (lamRes : Except String (List LambdaFunction)) : App :=
  let a := { a with is_loading := true, status_message := "Loading..." }
  let a :=
    match a.current_screen with
    | Screen.Ec2 | Screen.Home =>
      let a := a.issue "list_ec2_instances"
      match ec2Res with
      | .ok instances =>
        let count := instances.length
        let a := { a with ec2_instances := instances,
                          status_message := "Loaded " ++ toString count ++ " EC2 instances" }
        a.log_push .Success ("Refreshed EC2: " ++ toString count ++ " instances loaded")
      | .error e =>
        let a := { a with status_message := "Error: " ++ e }
        let a := a.log_push .Error ("Failed to load EC2 instances: " ++ e)
        if is_session_expired_error e then
          let a := { a with dialog := Dialog.SessionExpired, dialog_scroll_offset := 0 }
          a.log_push .Warning "AWS session token expired - credentials need refresh"
        else a
    | Screen.Lambda =>
      let a := a.issue "list_lambda_functions"
      match lamRes with
      | .ok functions =>
        let count := functions.length
        let a := { a with lambda_functions := functions,
                          status_message := "Loaded " ++ toString count ++ " Lambda functions" }
        a.log_push .Success ("Refreshed Lambda: " ++ toString count ++ " functions loaded")
      | .error e =>
        let a := { a with status_message := "Error: " ++ e }
        let a := a.log_push .Error ("Failed to load Lambda functions: " ++ e)
        if is_session_expired_error e then
          let a := { a with dialog := Dialog.SessionExpired, dialog_scroll_offset := 0 }
          a.log_push .Warning "AWS session token expired - credentials need refresh"
        else a
    | Screen.About | Screen.Logs =>
      { a with status_message := "Nothing to refresh on this screen" }
  { a with is_loading := false, last_refresh := some now }

/-- `App::all_instances_stable`. -/
def App.all_instances_stable (a : App) : Bool :=
  a.ec2_instances.all (fun inst =>
    inst.state = "running" || inst.state = "stopped" || inst.state = "terminated")

/-- `App::activate_boost_refresh`. -/
def App.activate_boost_refresh (a : App) : App :=
  { a with boost_refresh_until_stable := true }

/-- `App::check_auto_refresh`.  The `elapsed.num_seconds() as u64` cast
reinterprets the signed 64-bit second count as unsigned (wrapping). -/
def App.check_auto_refresh (a : App) (now : Int)
    (ec2Res : Except String (List Ec2Instance))
    (lamRes : Except String (List LambdaFunction)) : App :=
  if a.current_screen = Screen.About ∨ a.dialog ≠ Dialog.None then a
  else
    let a := a.cleanup_old_toasts now
    let a :=
      if a.boost_refresh_until_stable ∧ a.all_instances_stable then
        { a with boost_refresh_until_stable := false }
      else a
    let interval : Nat := if a.boost_refresh_until_stable then 5 else a.auto_refresh_interval
    let should_refresh : Bool :=
      match a.last_refresh with
      | some last => decide (((numSeconds (now - last)).emod (2 ^ 64)).toNat ≥ interval)
      | none => true
    if should_refresh then a.refresh_data now ec2Res lamRes else a

/-- `App::seconds_until_refresh` (u64 `saturating_sub` is `Nat` subtraction). -/
def App.seconds_until_refresh (a : App) (now : Int) : Option Nat :=
  if a.current_screen = Screen.About ∨ a.dialog ≠ Dialog.None then none
  else
    let interval : Nat := if a.boost_refresh_until_stable then 5 else a.auto_refresh_interval
    a.last_refresh.map (fun last =>
      let elapsed := ((numSeconds (now - last)).emod (2 ^ 64)).toNat
      interval - elapsed)

/-- `App::start_selected_instance`.  `startRes` is the oracle result of the
`start_instance` client call; on success the instance list is re-fetched via
`refresh_data` with the remaining oracle values. -/
def App.start_selected_instance (a : App) (now : Int)
    (startRes : Except String Unit)
    (ec2Res : Except String (List Ec2Instance))
    (lamRes : Except String (List LambdaFunction)) : App :=
  match a.ec2_instances.get? a.ec2_selected with
  | none => a
  | some inst =>
    let id := inst.id
    let name := inst.name
    let a := { a with status_message := "Starting " ++ id ++ "..." }
    let a := a.issue ("start_instance " ++ id)
    match startRes with
    | .ok _ =>
      let a := { a with status_message := "Started " ++ id }
      let a := a.add_toast ("✓ Started: " ++ name) .Success now
      let a := a.log_push .Success ("Started EC2 instance: " ++ name ++ " (" ++ id ++ ")")
      let a := a.activate_boost_refresh
      a.refresh_data now ec2Res lamRes
    | .error e =>
      let a := { a with status_message := "Failed to start: " ++ e }
      let a := a.add_toast ("✗ Failed to start: " ++ name) .Error now
      a.log_push .Error ("Failed to start " ++ name ++ ": " ++ e)

/-- `App::stop_selected_instance`. -/
def App.stop_selected_instance (a : App) (now : Int)
    (stopRes : Except String Unit)
    (ec2Res : Except String (List Ec2Instance))
    (lamRes : Except String (List LambdaFunction)) : App :=
  match a.ec2_instances.get? a.ec2_selected with
  | none => a
  | some inst =>
    let id := inst.id
    let name := inst.name
    let a := { a with status_message := "Stopping " ++ id ++ "..." }
    let a := a.issue ("stop_instance " ++ id)
    match stopRes with
    | .ok _ =>
      let a := { a with status_message := "Stopped " ++ id }
      let a := a.add_toast ("✓ Stopped: " ++ name) .Success now
      let a := a.log_push .Success ("Stopped EC2 instance: " ++ name ++ " (" ++ id ++ ")")
      let a := a.activate_boost_refresh
      a.refresh_data now ec2Res lamRes
    | .error e =>
      let a := { a with status_message := "Failed to stop: " ++ e }
      let a := a.add_toast ("✗ Failed to stop: " ++ name) .Error now
      a.log_push .Error ("Failed to stop " ++ name ++ ": " ++ e)

/-- `App::confirm_terminate_instance`. -/
def App.confirm_terminate_instance (a : App) : App :=
  match a.ec2_instances.get? a.ec2_selected with
  | none => a
  | some inst =>
    { a with dialog := Dialog.ConfirmTerminate inst.id, dialog_scroll_offset := 0 }

/-- `App::terminate_instance`. -/
def App.terminate_instance (a : App) (instance_id : String) (now : Int)
    (termRes : Except String Unit)
    (ec2Res : Except String (List Ec2Instance))
    (lamRes : Except String (List LambdaFunction)) : App :=
  let instance_name :=
    ((a.ec2_instances.find? (fun i => i.id == instance_id)).map (·.name)).getD instance_id
  let a := { a with status_message := "Terminating " ++ instance_id ++ "..." }
  let a := a.issue ("terminate_instance " ++ instance_id)
  match termRes with
  | .ok _ =>
    let a := { a with status_message := "Terminated " ++ instance_id }
    let a := a.add_toast ("✓ Terminated: " ++ instance_name) .Success now
    let a := a.log_push .Success
      ("Terminated EC2 instance: " ++ instance_name ++ " (" ++ instance_id ++ ")")
    let a := a.activate_boost_refresh
    a.refresh_data now ec2Res lamRes
  | .error e =>
    let a := { a with status_message := "Failed to terminate: " ++ e }
    let a := a.add_toast ("✗ Failed to terminate: " ++ instance_name) .Error now
    a.log_push .Error ("Failed to terminate " ++ instance_name ++ ": " ++ e)

/-- `App::open_schedule_dialog`. -/
def App.open_schedule_dialog (a : App) : App :=
  match a.ec2_instances.get? a.ec2_selected with
  | none => a
  | some inst =>
    { a with dialog := Dialog.ScheduleAutoStop inst.id, dialog_scroll_offset := 0 }

/-- Formatting of `stop_time.format("%H:%M:%S")` — only the stamp's presence
matters to the claims, so the formatted clock text is kept abstract as the
raw millisecond count rendered in decimal. -/
def formatHMS (ms : Int) : String := toString ms

/-- `App::schedule_auto_stop`; the `chrono::Duration::from_std(duration)?`
conversion propagates an error (without mutating) for out-of-range durations. -/
def App.schedule_auto_stop (a : App) (instance_id : String) (duration_secs : Nat)
    (now : Int) : Except String App :=
  match durationFromStdSecs duration_secs with
  | none => .error "Source duration value is out of range for the target type"
  | some dms =>
    let stop_time := now + dms
    let instance_name :=
      ((a.ec2_instances.find? (fun i => i.id == instance_id)).map (·.name)).getD instance_id
    let a := { a with auto_stop_schedules :=
      (a.auto_stop_schedules.filter (fun p : String × Int => p.1 != instance_id)) ++ [(instance_id, stop_time)] }
    let a := { a with status_message :=
      "Scheduled auto-stop for " ++ instance_id ++ " at " ++ formatHMS stop_time }
    let a := a.add_toast ("⏰ Scheduled: " ++ instance_name) .Success now
    .ok (a.log_push .Success
      ("Scheduled auto-stop for " ++ instance_name ++ " (" ++ instance_id ++ ") at "
        ++ formatHMS stop_time))

/-- The alert message built by `check_alerts` for one over-threshold instance. -/
def alertMessage (inst : Ec2Instance) (runningMs : Int) : String :=
  "⚠️ Instance " ++ inst.name ++ " (" ++ inst.id ++ ") running for "
    ++ format_duration runningMs ++ " without auto-stop!"

/-- One iteration of the `for instance in &self.ec2_instances` loop body of
`App::check_alerts`. -/
def checkAlertsStep (now thresholdMs : Int) (a : App) (inst : Ec2Instance) : App :=
  if inst.state = "running" then
    let has_schedule := a.auto_stop_schedules.any (fun p : String × Int => p.1 == inst.id)
    if !has_schedule then
      match inst.launch_time with
      | some launch_time =>
        let running_duration := now - launch_time
        if thresholdMs < running_duration then
          let alert_msg := alertMessage inst running_duration
          if !(a.pending_alerts.contains alert_msg) then
            let a := { a with pending_alerts := a.pending_alerts ++ [alert_msg],
                              dialog := Dialog.Alert alert_msg,
                              dialog_scroll_offset := 0 }
            if a.config.alerts.sound_enabled then a.play_alert_sound else a
          else a
        else a
      | none => a
    else a
  else a

/-- `App::check_alerts`: throttled to once per 30 seconds; the threshold comes
from `config.alerts.alert_threshold` with `unwrap_or(1 hour)` for the
`from_std` conversion. -/
def App.check_alerts (a : App) (now : Int) : App :=
  let throttled :=
    match a.last_alert_check with
    | some last_check => decide (numSeconds (now - last_check) < 30)
    | none => false
  if throttled then a
  else
    let a := { a with last_alert_check := some now }
    let threshold := (durationFromStdSecs a.config.alerts.alert_threshold).getD 3600000
    a.ec2_instances.foldl (checkAlertsStep now threshold) a

/-- `App::open_settings_dialog`. -/
def App.open_settings_dialog (a : App) : App :=
  let a := { a with settings_draft := some a.settings,
                    settings_selected_field := SettingsField.RefreshInterval,
                    dialog := Dialog.Settings,
                    dialog_scroll_offset := 0 }
  a.log_push .Info "Opened settings dialog"

/-- `App::save_settings`; `saveRes` is the oracle result of the settings-file
write (`Settings::save`). -/
def App.save_settings (a : App) (now : Int) (saveRes : Except String Unit) : App :=
  let a :=
    match a.settings_draft with
    | some draft =>
      let a := { a with settings_draft := none, settings := draft,
                        auto_refresh_interval := draft.refresh_interval }
      match saveRes with
      | .error e =>
        let a := a.add_toast ("Failed to save settings: " ++ e) .Error now
        a.log_push .Error ("Failed to save settings: " ++ e)
      | .ok _ =>
        let a := a.add_toast "Settings saved" .Success now
        a.log_push .Success "Settings saved"
    | none => a
  { a with dialog := Dialog.None }

/-- `App::cancel_settings`. -/
def App.cancel_settings (a : App) : App :=
  let a := { a with settings_draft := none, dialog := Dialog.None }
  a.log_push .Info "Settings dialog cancelled"

/-- `App::modify_current_setting`. -/
def App.modify_current_setting (a : App) (delta : Int) : App :=
  match a.settings_draft with
  | none => a
  | some draft =>
    let forward := decide (delta > 0)
    let draft :=
      match a.settings_selected_field with
      | .RefreshInterval => draft.cycle_refresh_interval forward
      | .ShowLogsPanel => draft.toggle_logs_panel
      | .LogLevel => draft.cycle_log_level forward
      | .AlertThreshold => draft.cycle_alert_threshold forward
      | .SoundEnabled => draft.toggle_sound
      | .TestSound => draft
    { a with settings_draft := some draft }

/-- `App::navigate_settings_field`. -/
def App.navigate_settings_field (a : App) (up : Bool) : App :=
  { a with settings_selected_field :=
      if up then a.settings_selected_field.prev else a.settings_selected_field.next }

/-- `App::trigger_test_alert`. -/
def App.trigger_test_alert (a : App) (now : Int) : App :=
  let a := a.play_alert_sound
  let a := a.add_toast "🔔 Test Alert: System Sound Working" .Info now
  a.log_push .Info "Triggered test alert sound"

/-- `App::login_with_sso` (synchronous effects only; the spawned external
login process is recorded as a ghost call). -/
def App.login_with_sso (a : App) (now : Int) : App :=
  let a := { a with status_message := "Initiating AWS SSO Login..." }
  let a := a.add_toast "🔑 Starting AWS SSO login... check browser" .Info now
  let a := a.issue "spawn aws sso login"
  a.log_push .Info "Spawned 'aws sso login' thread"

/-- `App::activate_profile` (synchronous effects only; the spawned client
reconstruction is recorded as a ghost call). -/
def App.activate_profile (a : App) (profile_name : String) (now : Int) : App :=
  let a := { a with status_message := "Switching to profile: " ++ profile_name ++ "..." }
  let a := a.add_toast ("🔄 Switching to profile '" ++ profile_name ++ "'...") .Info now
  let a := { a with is_loading := true }
  let a := a.log_push .Info
    ("Set AWS_PROFILE=" ++ profile_name ++ " and re-initializing client")
  a.issue ("spawn AwsClient::new for " ++ profile_name)

/-- Oracle bundling the results of the (external) fallible operations one
event application may perform, plus the current time. -/
structure Oracle where
  now : Int
  ec2Res : Except String (List Ec2Instance)
  lamRes : Except String (List LambdaFunction)
  startRes : Except String Unit
  stopRes : Except String Unit
  termRes : Except String Unit
  saveRes : Except String Unit
  deriving Repr

/-- Rust `format!("\x7b:?\x7d", screen)` — the `Debug` name of a `Screen`. -/
def screenDebugName : Screen → String
  | .Home => "Home"
  | .Ec2 => "Ec2"
  | .Lambda => "Lambda"
  | .Logs => "Logs"
  | .About => "About"

/-- `App::move_selection` from `src/app/handlers.rs` (the `usize as i32` casts
are exact for the index ranges reachable here; `u16` subtraction saturates). -/
def App.move_selection (a : App) (delta : Int) : App :=
  match a.current_screen with
  | .Ec2 =>
    let len := a.ec2_instances.length
    if len > 0 then
      let new_idx := (a.ec2_selected : Int) + delta
      { a with ec2_selected := (max 0 (min new_idx ((len : Int) - 1))).toNat }
    else a
  | .Lambda =>
    let len := a.lambda_functions.length
    if len > 0 then
      let new_idx := (a.lambda_selected : Int) + delta
      { a with lambda_selected := (max 0 (min new_idx ((len : Int) - 1))).toNat }
    else a
  | .Home | .About | .Logs =>
    let w := a.window_size.1
    let h := a.window_size.2
    let available_height := h - 8
    let content_height : Nat :=
      match a.current_screen with
      | .Home => if w ≥ 100 then 18 else 25
      | .About => if w ≥ 100 then 30 else 58
      | .Logs => 50
      | _ => 0
    let max_scroll := content_height - available_height
    if delta > 0 then { a with scroll_offset := min (a.scroll_offset + 1) max_scroll }
    else { a with scroll_offset := a.scroll_offset - 1 }

/-- `App::handle_enter` from `src/app/handlers.rs`. -/
def App.handle_enter (a : App) (o : Oracle) : App :=
  match a.current_screen with
  | .Home => a
  | .Ec2 => a.refresh_data o.now o.ec2Res o.lamRes
  | .Lambda =>
    match a.lambda_functions.get? a.lambda_selected with
    | some func => { a with status_message := "Lambda invocation coming soon: " ++ func.name }
    | none => a
  | .About | .Logs => a

/-- `App::ensure_dialog_selection_visible` from `src/app/handlers.rs`
(`u16` multiplication wraps mod `2^16` in release mode; `saturating_sub` is
`Nat` subtraction; `saturating_add(1)` caps at `65535`). -/
def App.ensure_dialog_selection_visible (a : App) : App :=
  let h := a.window_size.2
  match a.dialog with
  | .ConfigureAws | .SessionExpired | .Settings =>
    let percent_y : Nat := if a.dialog = Dialog.Settings then 60 else 50
    let top_padding : Nat := 5
    let chunk_height := (h * percent_y) % 65536 / 100
    let available_height := chunk_height - 3
    let target_line : Nat :=
      match a.dialog with
      | .ConfigureAws | .SessionExpired =>
        (top_padding + a.selected_profile_index % 65536) % 65536
      | .Settings =>
        let idx : Nat :=
          match a.settings_selected_field with
          | .RefreshInterval => 0
          | .ShowLogsPanel => 1
          | .LogLevel => 2
          | .AlertThreshold => 3
          | .SoundEnabled => 4
          | .TestSound => 5
        top_padding + idx * 2
      | _ => 0
    if target_line < a.dialog_scroll_offset then
      { a with dialog_scroll_offset := target_line }
    else if target_line ≥ (a.dialog_scroll_offset + available_height) % 65536 then
      { a with dialog_scroll_offset := min (target_line - available_height + 1) 65535 }
    else a
  | _ => a

/-- `App::handle_dialog_event` from `src/app/handlers.rs`.  The
`available_profiles[selected_profile_index]` indexing is modelled with a
default (the source would panic on an out-of-range index). -/
def App.handle_dialog_event (a : App) (event : AppEvent) (o : Oracle) : Except String App :=
  match event with
  | .Quit =>
    .ok (if a.dialog = Dialog.Settings then a.cancel_settings
         else { a with dialog := Dialog.None })
  | .Up =>
    .ok (if a.dialog = Dialog.Settings then
      if a.settings_selected_field ≠ SettingsField.RefreshInterval then
        (a.navigate_settings_field true).ensure_dialog_selection_visible
      else { a with dialog_scroll_offset := a.dialog_scroll_offset - 1 }
    else if a.dialog = Dialog.ConfigureAws ∨ a.dialog = Dialog.SessionExpired then
      if a.selected_profile_index > 0 then
        ({ a with selected_profile_index := a.selected_profile_index - 1
         }).ensure_dialog_selection_visible
      else { a with dialog_scroll_offset := a.dialog_scroll_offset - 1 }
    else { a with dialog_scroll_offset := a.dialog_scroll_offset - 1 })
  | .Down =>
    let h := a.window_size.2
    let pcl : Nat × Nat :=
      match a.dialog with
      | .Setup => (70, 27)
      | .Help => (60, 27)
      | .Settings => (60, 15)
      | .SessionExpired => (60, 25)
      | .ConfirmTerminate _ => (30, 12)
      | .ScheduleAutoStop _ => (30, 12)
      | .Alert _ => (25, 10)
      | .ConfigureAws => (50, (5 + (a.available_profiles.length.max 1) % 65536 + 1) % 65536)
      | .Changelog => (70, 50)
      | .None => (0, 0)
    let chunk_height := (h * pcl.1) % 65536 / 100
    let available_height := chunk_height - 2
    let max_scroll := pcl.2 - available_height
    .ok (if a.dialog = Dialog.Settings then
      if a.settings_selected_field ≠ SettingsField.TestSound then
        (a.navigate_settings_field false).ensure_dialog_selection_visible
      else if a.dialog_scroll_offset < max_scroll then
        { a with dialog_scroll_offset := a.dialog_scroll_offset + 1 }
      else a
    else if a.dialog = Dialog.ConfigureAws ∨ a.dialog = Dialog.SessionExpired then
      if a.available_profiles ≠ [] ∧ a.selected_profile_index < a.available_profiles.length - 1 then
        ({ a with selected_profile_index := a.selected_profile_index + 1
         }).ensure_dialog_selection_visible
      else if a.dialog_scroll_offset < max_scroll then
        { a with dialog_scroll_offset := a.dialog_scroll_offset + 1 }
      else a
    else if a.dialog_scroll_offset < max_scroll then
      { a with dialog_scroll_offset := a.dialog_scroll_offset + 1 }
    else a)
  | .Enter =>
    match a.dialog with
    | .ConfirmTerminate id =>
      .ok (({ a with dialog := Dialog.None }).terminate_instance id o.now o.termRes o.ec2Res o.lamRes)
    | .ScheduleAutoStop id =>
      ({ a with dialog := Dialog.None }).schedule_auto_stop id 3600 o.now
    | .Settings =>
      .ok (if a.settings_selected_field = SettingsField.TestSound then
        a.trigger_test_alert o.now
      else a.save_settings o.now o.saveRes)
    | .ConfigureAws | .SessionExpired =>
      .ok (if a.available_profiles ≠ [] then
        a.activate_profile (a.available_profiles.getD a.selected_profile_index "") o.now
      else a)
    | .Alert _ | .Help | .Setup | .Changelog => .ok { a with dialog := Dialog.None }
    | .None => .ok a
  | .ConfigureAws => .ok { a with dialog := Dialog.ConfigureAws, dialog_scroll_offset := 0 }
  | .ModifySettingValue delta =>
    .ok (if a.dialog = Dialog.Settings then a.modify_current_setting delta else a)
  | .CancelSettings =>
    .ok (if a.dialog = Dialog.Settings then a.cancel_settings
         else { a with dialog := Dialog.None })
  | .SsoLogin =>
    .ok (if a.dialog = Dialog.SessionExpired ∨ a.dialog = Dialog.ConfigureAws ∨
            a.dialog = Dialog.Setup then
      a.login_with_sso o.now
    else a)
  | .Refresh =>
    .ok (if a.dialog = Dialog.SessionExpired then
      ({ a with dialog := Dialog.None }).refresh_data o.now o.ec2Res o.lamRes
    else a)
  | _ => .ok a

/-- `App::handle_event` from `src/app/handlers.rs`. -/
def App.handle_event (a : App) (event : AppEvent) (o : Oracle) : Except String App :=
  if a.dialog ≠ Dialog.None then a.handle_dialog_event event o
  else
    match event with
    | .Quit => .ok { a with should_quit := true }
    | .NavigateTab idx =>
      let new_screen :=
        match idx with
        | 0 => Screen.Home
        | 1 => Screen.Ec2
        | 2 => Screen.Lambda
        | 3 => Screen.About
        | 4 => Screen.Logs
        | _ => a.current_screen
      let new_screen :=
        if new_screen = Screen.Logs ∧ ¬a.settings.show_logs_panel then a.current_screen
        else new_screen
      .ok (if new_screen ≠ a.current_screen then
        ({ a with current_screen := new_screen, scroll_offset := 0 }).log_push .Info
          ("Navigated to " ++ screenDebugName new_screen ++ " screen")
      else a)
    | .Up => .ok (a.move_selection (-1))
    | .Down => .ok (a.move_selection 1)
    | .Refresh => .ok (a.refresh_data o.now o.ec2Res o.lamRes)
    | .Start => .ok (a.start_selected_instance o.now o.startRes o.ec2Res o.lamRes)
    | .Stop => .ok (a.stop_selected_instance o.now o.stopRes o.ec2Res o.lamRes)
    | .Terminate => .ok a.confirm_terminate_instance
    | .Schedule => .ok a.open_schedule_dialog
    | .ShowHelp => .ok { a with dialog := Dialog.Help, dialog_scroll_offset := 0 }
    | .Enter => .ok (a.handle_enter o)
    | .Resize w h => .ok { a with window_size := (w, h) }
    | .OpenSettings => .ok a.open_settings_dialog
    | .ModifySettingValue _ => .ok a
    | .CancelSettings => .ok a
    | .None => .ok a
    | .ConfigureAws => .ok { a with dialog := Dialog.ConfigureAws, dialog_scroll_offset := 0 }
    | .SsoLogin => .ok a
    | .ShowChangelog =>
      .ok (if a.current_screen = Screen.About then
        { a with dialog := Dialog.Changelog, dialog_scroll_offset := 0 }
      else a)

/-! ### Concrete sample states (used by witnesses and counterexamples) -/

/-- A concrete baseline application state (fields as produced by `App::new`
with no instances loaded, on the EC2 screen). -/
def sampleApp : App :=
  { config := AppConfig.default
    should_quit := false
    current_screen := Screen.Ec2
    aws_configured := true
    status_message := "Ready"
    is_loading := false
    scroll_offset := 0
    ec2_instances := []
    ec2_selected := 0
    auto_stop_schedules := []
    lambda_functions := []
    lambda_selected := 0
    dialog := Dialog.None
    pending_alerts := []
    last_alert_check := none
    last_refresh := none
    auto_refresh_interval := 60
    boost_refresh_until_stable := false
    toasts := []
    window_size := (80, 24)
    dialog_scroll_offset := 0
    settings := Settings.default
    settings_selected_field := SettingsField.RefreshInterval
    settings_draft := none
    log := []
    available_profiles := []
    selected_profile_index := 0
    active_profile_name := some "default"
    issued_calls := []
    sounds_played := 0 }

/-- A concrete running EC2 instance launched at time 0. -/
def sampleInstance : Ec2Instance :=
  { id := "i-0abc", name := "web", instance_type := "t3.micro", state := "running",
    public_ip := none, private_ip := none, launch_time := some 0,
    auto_stop_scheduled := none }

/-- A concrete oracle where every external operation succeeds trivially. -/
def sampleOracle : Oracle :=
  { now := 0, ec2Res := .ok [], lamRes := .ok [], startRes := .ok (),
    stopRes := .ok (), termRes := .ok (), saveRes := .ok () }

/-! ### Helper lemmas about frame-preserved fields -/

lemma refresh_data_boost (a : App) (now : Int) (e : Except String (List Ec2Instance))
    (l : Except String (List LambdaFunction)) :
    (a.refresh_data now e l).boost_refresh_until_stable = a.boost_refresh_until_stable := by
  unfold App.refresh_data
  cases a.current_screen <;> cases e <;> cases l <;>
    simp [App.issue, App.log_push] <;> split_ifs <;> simp [App.log_push]

lemma refresh_data_toasts (a : App) (now : Int) (e : Except String (List Ec2Instance))
    (l : Except String (List LambdaFunction)) :
    (a.refresh_data now e l).toasts = a.toasts := by
  unfold App.refresh_data
  cases a.current_screen <;> cases e <;> cases l <;>
    simp [App.issue, App.log_push] <;> split_ifs <;> simp [App.log_push]

/-- C5 helper: the trailing update of `refresh_data`. -/
lemma refresh_data_stamps (a : App) (now : Int) (e : Except String (List Ec2Instance))
    (l : Except String (List LambdaFunction)) :
    (a.refresh_data now e l).is_loading = false ∧
    (a.refresh_data now e l).last_refresh = some now := by
  unfold App.refresh_data
  exact ⟨rfl, rfl⟩

/-- C5: on every invocation and for every active screen `refresh_data`
terminates with `is_loading = false` and `last_refresh = some now`, on both
the success and the failure path of the underlying list call; on success the
corresponding collection is replaced wholesale by the returned list. -/
theorem c5_refresh_protocol (a : App) (now : Int)
    (ec2Res : Except String (List Ec2Instance))
    (lamRes : Except String (List LambdaFunction)) :
    (a.refresh_data now ec2Res lamRes).is_loading = false ∧
    (a.refresh_data now ec2Res lamRes).last_refresh = some now ∧
    ((a.current_screen = Screen.Ec2 ∨ a.current_screen = Screen.Home) →
      ∀ instances, ec2Res = .ok instances →
        (a.refresh_data now ec2Res lamRes).ec2_instances = instances) ∧
    (a.current_screen = Screen.Lambda →
      ∀ functions, lamRes = .ok functions →
        (a.refresh_data now ec2Res lamRes).lambda_functions = functions) := by
  refine ⟨(refresh_data_stamps a now ec2Res lamRes).1,
          (refresh_data_stamps a now ec2Res lamRes).2, ?_, ?_⟩
  · rintro (h | h) instances rfl <;>
      simp [App.refresh_data, h, App.issue, App.log_push]
  · rintro h functions rfl
    simp [App.refresh_data, h, App.issue, App.log_push]

/-- C5 witness: concrete successful refresh on the EC2 screen. -/
theorem c5_refresh_protocol_witness :
    (sampleApp.refresh_data 7 (.ok [sampleInstance]) (.ok [])).is_loading = false ∧
    (sampleApp.refresh_data 7 (.ok [sampleInstance]) (.ok [])).last_refresh = some 7 ∧
    (sampleApp.refresh_data 7 (.ok [sampleInstance]) (.ok [])).ec2_instances
      = [sampleInstance] := by
  have h := c5_refresh_protocol sampleApp 7 (.ok [sampleInstance]) (.ok [])
  exact ⟨h.1, h.2.1, h.2.2.1 (Or.inl (by decide)) [sampleInstance] rfl⟩

/-- C9: with an out-of-range instance-selection index (in particular on the
empty list) and no dialog open, the Start, Stop, Terminate and Schedule
events on the Instances screen leave the application state entirely
unchanged: no dialog opens, no client call is issued (ghost `issued_calls`
untouched) and no status, toast or log mutation occurs. -/
theorem c9_out_of_range_selection_noop (a : App) (o : Oracle)
    (hsel : a.ec2_instances.length ≤ a.ec2_selected)
    (hdlg : a.dialog = Dialog.None)
    (_hscr : a.current_screen = Screen.Ec2) :
    a.handle_event .Start o = .ok a ∧
    a.handle_event .Stop o = .ok a ∧
    a.handle_event .Terminate o = .ok a ∧
    a.handle_event .Schedule o = .ok a := by
  have hnone : a.ec2_instances[a.ec2_selected]? = none :=
    List.getElem?_eq_none hsel
  refine ⟨?_, ?_, ?_, ?_⟩ <;>
    simp [App.handle_event, hdlg, App.start_selected_instance,
      App.stop_selected_instance, App.confirm_terminate_instance,
      App.open_schedule_dialog, hnone]

/-- C9 witness: the empty instance list with selection index 0. -/
theorem c9_out_of_range_selection_noop_witness :
    sampleApp.handle_event .Start sampleOracle = .ok sampleApp ∧
    sampleApp.handle_event .Stop sampleOracle = .ok sampleApp ∧
    sampleApp.handle_event .Terminate sampleOracle = .ok sampleApp ∧
    sampleApp.handle_event .Schedule sampleOracle = .ok sampleApp :=
  c9_out_of_range_selection_noop sampleApp sampleOracle (by decide) (by decide) (by decide)

/-- C10 helper: `cleanup_old_toasts` changes only the toast list. -/
lemma cleanup_old_toasts_frame (a : App) (now : Int) :
    (a.cleanup_old_toasts now).boost_refresh_until_stable = a.boost_refresh_until_stable ∧
    (a.cleanup_old_toasts now).ec2_instances = a.ec2_instances ∧
    (a.cleanup_old_toasts now).all_instances_stable = a.all_instances_stable ∧
    (a.cleanup_old_toasts now).last_refresh = a.last_refresh ∧
    (a.cleanup_old_toasts now).auto_refresh_interval = a.auto_refresh_interval := by
  refine ⟨rfl, rfl, ?_, rfl, rfl⟩
  simp [App.cleanup_old_toasts, App.all_instances_stable]

/-- C10: with zero tracked instances the all-instances-stable check is
vacuously true, so a single auto-refresh check (no dialog open, screen not
About) leaves the boost flag false afterwards. -/
theorem c10_empty_list_clears_boost (a : App) (now : Int)
    (ec2Res : Except String (List Ec2Instance))
    (lamRes : Except String (List LambdaFunction))
    (hempty : a.ec2_instances = [])
    (hdlg : a.dialog = Dialog.None)
    (hscr : a.current_screen ≠ Screen.About) :
    (a.check_auto_refresh now ec2Res lamRes).boost_refresh_until_stable = false := by
  unfold App.check_auto_refresh
  have hstable : (a.cleanup_old_toasts now).all_instances_stable = true := by
    rw [(cleanup_old_toasts_frame a now).2.2.1]
    simp [App.all_instances_stable, hempty]
  simp only [hdlg, hscr]
  cases hb : (a.cleanup_old_toasts now).boost_refresh_until_stable <;>
    simp [hb, hstable, refresh_data_boost] <;> split_ifs <;>
      simp [refresh_data_boost, hb]

/-- C10 witness: the sample state with the boost flag forced on. -/
theorem c10_empty_list_clears_boost_witness :
    (({ sampleApp with boost_refresh_until_stable := true
      } : App).check_auto_refresh 0 (.ok []) (.ok [])).boost_refresh_until_stable = false :=
  c10_empty_list_clears_boost _ 0 (.ok []) (.ok []) (by decide) (by decide) (by decide)

/-- A state with the Help dialog open and a toast created at `t0 = 0`. -/
def c2StaleToastApp : App :=
  { sampleApp with dialog := Dialog.Help,
                   toasts := [{ message := "hi", toast_type := .Info, created_at := 0 }] }

/-- C2 counterexample: a tick's auto-refresh check at `t0 + 5.1s` with a
dialog open does not purge the expired toast — the purge is not performed
"regardless of whether a dialog is open": `check_auto_refresh` returns before
`cleanup_old_toasts` whenever a dialog is open (or the screen is About). -/
theorem c2_dialog_blocks_toast_purge :
    (c2StaleToastApp.check_auto_refresh 5100 (.ok []) (.ok [])) = c2StaleToastApp := by
  decide

/-- C2 (amended): on every tick's auto-refresh check with no dialog open and
the current screen not About, expired toasts are purged (before the
refresh-timer evaluation, which never alters the toast list); consequently a
toast created at `t0` is still present at `t0 + 4.9s` and absent at
`t0 + 5.1s` on such ticks. -/
theorem c2_toast_purge (a : App) (now : Int)
    (ec2Res : Except String (List Ec2Instance))
    (lamRes : Except String (List LambdaFunction))
    (hdlg : a.dialog = Dialog.None)
    (hscr : a.current_screen ≠ Screen.About) :
    (a.check_auto_refresh now ec2Res lamRes).toasts
      = a.toasts.filter (fun t => numSeconds (now - t.created_at) < 5) ∧
    (∀ t ∈ a.toasts, ∀ t0 : Int, t.created_at = t0 →
      ((now = t0 + 4900 → t ∈ (a.check_auto_refresh now ec2Res lamRes).toasts) ∧
       (now = t0 + 5100 → t ∉ (a.check_auto_refresh now ec2Res lamRes).toasts))) := by
  have hfilter : (a.check_auto_refresh now ec2Res lamRes).toasts
      = a.toasts.filter (fun t => numSeconds (now - t.created_at) < 5) := by
    unfold App.check_auto_refresh
    simp only [hdlg, hscr]
    cases hb : (a.cleanup_old_toasts now).boost_refresh_until_stable <;>
      cases hst : (a.cleanup_old_toasts now).all_instances_stable <;>
        simp [hb, hst, refresh_data_toasts, App.cleanup_old_toasts] <;>
          split_ifs <;> simp [refresh_data_toasts, App.cleanup_old_toasts]
  refine ⟨hfilter, ?_⟩
  intro t ht t0 ht0
  constructor
  · intro hnow
    rw [hfilter, List.mem_filter]
    refine ⟨ht, ?_⟩
    have hd : now - t.created_at = (4900 : Int) := by rw [hnow, ht0]; ring
    rw [hd]
    decide
  · intro hnow
    rw [hfilter, List.mem_filter]
    rintro ⟨-, habs⟩
    have hd : now - t.created_at = (5100 : Int) := by rw [hnow, ht0]; ring
    rw [hd] at habs
    exact absurd habs (by decide)

/-- A state with a single fresh toast created at `t0 = 0` and no dialog. -/
def c2FreshToastApp : App :=
  { sampleApp with toasts := [{ message := "hi", toast_type := .Info, created_at := 0 }] }

/-- C2 witness: a purge-eligible tick at `t0 + 4.9s` keeps the toast. -/
theorem c2_toast_purge_witness :
    (c2FreshToastApp.check_auto_refresh 4900 (.ok []) (.ok [])).toasts
      = c2FreshToastApp.toasts.filter (fun t => numSeconds (4900 - t.created_at) < 5) :=
  (c2_toast_purge c2FreshToastApp 4900 (.ok []) (.ok []) (by decide) (by decide)).1

/-- C3: settings edits are transactional through the draft: opening the
settings dialog snapshots the committed settings into the draft; every
`ModifySettingValue` mutates only the draft, leaving committed settings and
the derived auto-refresh interval unchanged; cancelling discards the draft
and leaves committed settings as before; saving (and the Enter route with a
non-TestSound field selected) replaces the committed settings with the draft
and recomputes the auto-refresh interval from the draft's
`refresh_interval_secs`. -/
theorem c3_settings_draft_transactional :
    (∀ a : App,
      (a.open_settings_dialog).settings = a.settings ∧
      (a.open_settings_dialog).settings_draft = some a.settings ∧
      (a.open_settings_dialog).auto_refresh_interval = a.auto_refresh_interval ∧
      (a.open_settings_dialog).dialog = Dialog.Settings) ∧
    (∀ (a : App) (delta : Int),
      (a.modify_current_setting delta).settings = a.settings ∧
      (a.modify_current_setting delta).auto_refresh_interval = a.auto_refresh_interval) ∧
    (∀ a : App,
      (a.cancel_settings).settings = a.settings ∧
      (a.cancel_settings).settings_draft = none ∧
      (a.cancel_settings).auto_refresh_interval = a.auto_refresh_interval ∧
      (a.cancel_settings).dialog = Dialog.None) ∧
    (∀ (a : App) (draft : Settings) (now : Int) (saveRes : Except String Unit),
      a.settings_draft = some draft →
        (a.save_settings now saveRes).settings = draft ∧
        (a.save_settings now saveRes).auto_refresh_interval = draft.refresh_interval_secs ∧
        (a.save_settings now saveRes).settings_draft = none ∧
        (a.save_settings now saveRes).dialog = Dialog.None) ∧
    (∀ (a : App) (o : Oracle), a.dialog = Dialog.Settings →
      a.settings_selected_field ≠ SettingsField.TestSound →
        a.handle_event .Enter o = .ok (a.save_settings o.now o.saveRes)) := by
  refine ⟨?_, ?_, ?_, ?_, ?_⟩
  · intro a
    refine ⟨?_, ?_, ?_, ?_⟩ <;> simp [App.open_settings_dialog, App.log_push]
  · intro a delta
    cases h : a.settings_draft <;>
      refine ⟨?_, ?_⟩ <;> simp [App.modify_current_setting, h]
  · intro a
    refine ⟨?_, ?_, ?_, ?_⟩ <;> simp [App.cancel_settings, App.log_push]
  · intro a draft now saveRes hdraft
    cases saveRes <;>
      refine ⟨?_, ?_, ?_, ?_⟩ <;>
        simp [App.save_settings, hdraft, App.add_toast, App.log_push,
          Settings.refresh_interval]
  · intro a o hdlg hfield
    simp [App.handle_event, App.handle_dialog_event, hdlg, hfield]

/-- C3 witness: concrete open → modify → save round trip facts. -/
theorem c3_settings_draft_transactional_witness :
    ((sampleApp.open_settings_dialog).settings = sampleApp.settings) ∧
    (({ sampleApp with settings_draft := some Settings.default } : App).save_settings 0
        (.ok ())).settings = Settings.default ∧
    ((sampleApp.open_settings_dialog).handle_event .Enter sampleOracle
      = .ok ((sampleApp.open_settings_dialog).save_settings sampleOracle.now
          sampleOracle.saveRes)) := by
  refine ⟨(c3_settings_draft_transactional.1 sampleApp).1, ?_, ?_⟩
  · exact (c3_settings_draft_transactional.2.2.2.1 _ Settings.default 0 (.ok ()) (by decide)).1
  · exact c3_settings_draft_transactional.2.2.2.2 _ sampleOracle (by decide) (by decide)

/-- Throttle helper: a `check_alerts` call within 30 seconds of the previous
non-throttled one returns the state unchanged. -/
lemma check_alerts_throttled (a : App) (now last : Int)
    (h1 : a.last_alert_check = some last) (h2 : numSeconds (now - last) < 30) :
    a.check_alerts now = a := by
  unfold App.check_alerts
  simp [h1, h2]

/-- One loop iteration of `check_alerts` preserves `Nodup` of the
pending-alert list (each push is guarded by a `contains` check). -/
lemma checkAlertsStep_nodup (now th : Int) (a : App) (i : Ec2Instance)
    (h : a.pending_alerts.Nodup) : (checkAlertsStep now th a i).pending_alerts.Nodup := by
  unfold checkAlertsStep
  rcases hl : i.launch_time with _ | lt <;> simp only [hl] <;>
    split_ifs <;> simp_all [App.play_alert_sound, List.nodup_append]

/-- The alert loop preserves `Nodup` of the pending-alert list. -/
lemma foldl_checkAlertsStep_nodup (now th : Int) :
    ∀ (l : List Ec2Instance) (a : App), a.pending_alerts.Nodup →
      (l.foldl (checkAlertsStep now th) a).pending_alerts.Nodup
  | [], _, h => h
  | i :: t, a, h => by
      rw [List.foldl_cons]
      exact foldl_checkAlertsStep_nodup now th t _ (checkAlertsStep_nodup now th a i h)

/-- `check_alerts` preserves `Nodup` of the pending-alert list. -/
lemma check_alerts_nodup (a : App) (now : Int) (h : a.pending_alerts.Nodup) :
    (a.check_alerts now).pending_alerts.Nodup := by
  unfold App.check_alerts
  dsimp only
  split
  · exact h
  · exact foldl_checkAlertsStep_nodup _ _ _ _ h

/-- Scenario helper: one over-threshold, unscheduled running instance and a
non-throttled `check_alerts` call produce exactly one pending alert, open the
Alert dialog with it, and stamp `last_alert_check`. -/
lemma check_alerts_single_alert (a : App) (i : Ec2Instance) (lt now : Int)
    (hinsts : a.ec2_instances = [i]) (hstate : i.state = "running")
    (hsched : a.auto_stop_schedules = []) (hlt : i.launch_time = some lt)
    (hcfg : a.config.alerts.alert_threshold = 3600)
    (hover : 3600000 < now - lt)
    (hpending : a.pending_alerts = []) (hlast : a.last_alert_check = none) :
    (a.check_alerts now).pending_alerts = [alertMessage i (now - lt)] ∧
    (a.check_alerts now).dialog = Dialog.Alert (alertMessage i (now - lt)) ∧
    (a.check_alerts now).last_alert_check = some now := by
  have hth : durationFromStdSecs (3600 : Nat) = some 3600000 := by decide
  unfold App.check_alerts
  simp only [hlast]
  simp [hinsts, hcfg, hth, checkAlertsStep, hstate, hsched, hlt, hpending, hover,
    App.play_alert_sound]
  split_ifs <;> exact ⟨rfl, rfl, rfl⟩

/-- C4: `check_alerts` returns the state unchanged when invoked within 30
seconds of the previous non-throttled invocation; the pending-alert list
never acquires duplicate entries (push is guarded by exact string matching);
and two calls in the same 30-second window with one over-threshold
unscheduled running instance produce exactly one pending-alert entry and
open the Alert dialog exactly once (the second call is an identity). -/
theorem c4_alert_throttle_and_dedup :
    (∀ (a : App) (now last : Int), a.last_alert_check = some last →
      numSeconds (now - last) < 30 → a.check_alerts now = a) ∧
    (∀ (a : App) (now : Int), a.pending_alerts.Nodup →
      (a.check_alerts now).pending_alerts.Nodup) ∧
    (∀ (a : App) (i : Ec2Instance) (lt now nxt : Int),
      a.ec2_instances = [i] → i.state = "running" →
      a.auto_stop_schedules = [] → i.launch_time = some lt →
      a.config.alerts.alert_threshold = 3600 → 3600000 < now - lt →
      a.pending_alerts = [] → a.last_alert_check = none →
      numSeconds (nxt - now) < 30 →
        ((a.check_alerts now).check_alerts nxt).pending_alerts
          = [alertMessage i (now - lt)] ∧
        ((a.check_alerts now).check_alerts nxt).dialog
          = Dialog.Alert (alertMessage i (now - lt)) ∧
        (a.check_alerts now).check_alerts nxt = a.check_alerts now) := by
  refine ⟨check_alerts_throttled, check_alerts_nodup, ?_⟩
  intro a i lt now nxt h1 h2 h3 h4 h5 h6 h7 h8 h9
  obtain ⟨hp, hd, hl⟩ := check_alerts_single_alert a i lt now h1 h2 h3 h4 h5 h6 h7 h8
  have hsecond := check_alerts_throttled (a.check_alerts now) nxt now hl h9
  rw [hsecond]
  exact ⟨hp, hd, rfl⟩

/-- A state tracking one over-threshold unscheduled running instance. -/
def c4App : App := { sampleApp with ec2_instances := [sampleInstance] }

/-- C4 witness: two calls 20 seconds apart, instance two hours over. -/
theorem c4_alert_throttle_and_dedup_witness :
    ((c4App.check_alerts 7200000).check_alerts 7220000).pending_alerts
      = [alertMessage sampleInstance 7200000] ∧
    (c4App.check_alerts 7200000).check_alerts 7220000 = c4App.check_alerts 7200000 := by
  have h := c4_alert_throttle_and_dedup.2.2 c4App sampleInstance 0 7200000 7220000
    rfl rfl rfl rfl rfl (by decide) rfl rfl (by decide)
  exact ⟨by simpa using h.1, h.2.2⟩

/-- C6: a failed list call opens the SessionExpired dialog iff the error
text contains one of the fixed session-expiry keywords case-insensitively:
any error whose lowercased text contains "expiredtoken", "authfailure" or
"security token" is classified as expired; the three concrete keyword
strings classify as expired and "AccessDenied: no such bucket" does not; and
on the refresh failure path the dialog ends up SessionExpired exactly when
the classifier accepts the error text. -/
theorem c6_session_expiry_classification :
    (∀ s : String, rustContains (lowerAscii s) "expiredtoken" = true →
      is_session_expired_error s = true) ∧
    (∀ s : String, rustContains (lowerAscii s) "authfailure" = true →
      is_session_expired_error s = true) ∧
    (∀ s : String, rustContains (lowerAscii s) "security token" = true →
      is_session_expired_error s = true) ∧
    is_session_expired_error "ExpiredToken" = true ∧
    is_session_expired_error "AuthFailure" = true ∧
    is_session_expired_error "security token" = true ∧
    is_session_expired_error "AccessDenied: no such bucket" = false ∧
    (∀ (a : App) (now : Int) (e : String)
        (lamRes : Except String (List LambdaFunction)),
      (a.current_screen = Screen.Ec2 ∨ a.current_screen = Screen.Home) →
      a.dialog = Dialog.None →
        ((a.refresh_data now (.error e) lamRes).dialog = Dialog.SessionExpired
          ↔ is_session_expired_error e = true)) := by
  refine ⟨?_, ?_, ?_, by decide, by decide, by decide, by decide, ?_⟩
  · intro s h
    simp [is_session_expired_error, h]
  · intro s h
    simp [is_session_expired_error, h]
  · intro s h
    simp [is_session_expired_error, h]
  · intro a now e lamRes hscr hdlg
    rcases hscr with h | h <;>
      cases hcl : is_session_expired_error e <;>
        simp [App.refresh_data, h, hcl, hdlg, App.issue, App.log_push]

/-- C6 witness: a failing EC2 refresh with an ExpiredToken error opens the
SessionExpired dialog; with an AccessDenied error it does not. -/
theorem c6_session_expiry_classification_witness :
    ((sampleApp.refresh_data 0
        (.error "The security token included in the request is expired")
        (.ok [])).dialog = Dialog.SessionExpired) ∧
    ¬((sampleApp.refresh_data 0 (.error "AccessDenied: no such bucket")
        (.ok [])).dialog = Dialog.SessionExpired) := by
  constructor
  · exact (c6_session_expiry_classification.2.2.2.2.2.2.2 sampleApp 0 _ (.ok [])
      (Or.inl rfl) rfl).mpr (by decide)
  · intro h
    have := (c6_session_expiry_classification.2.2.2.2.2.2.2 sampleApp 0
      "AccessDenied: no such bucket" (.ok []) (Or.inl rfl) rfl).mp h
    exact absurd this (by decide)

/-- C7: the boost flag is set exactly on the success path of Start, Stop and
Terminate (failure paths and the refresh protocol itself leave it
unchanged); while boosted the effective auto-refresh interval is 5 seconds
(visible through `seconds_until_refresh`); and the auto-refresh check clears
the flag once every tracked instance is in a stable state. -/
theorem c7_boost_refresh_mode :
    (∀ (a : App) (now : Int) (inst : Ec2Instance)
        (e : Except String (List Ec2Instance)) (l : Except String (List LambdaFunction)),
      a.ec2_instances.get? a.ec2_selected = some inst →
        (a.start_selected_instance now (.ok ()) e l).boost_refresh_until_stable = true) ∧
    (∀ (a : App) (now : Int) (msg : String)
        (e : Except String (List Ec2Instance)) (l : Except String (List LambdaFunction)),
      (a.start_selected_instance now (.error msg) e l).boost_refresh_until_stable
        = a.boost_refresh_until_stable) ∧
    (∀ (a : App) (now : Int) (inst : Ec2Instance)
        (e : Except String (List Ec2Instance)) (l : Except String (List LambdaFunction)),
      a.ec2_instances.get? a.ec2_selected = some inst →
        (a.stop_selected_instance now (.ok ()) e l).boost_refresh_until_stable = true) ∧
    (∀ (a : App) (now : Int) (msg : String)
        (e : Except String (List Ec2Instance)) (l : Except String (List LambdaFunction)),
      (a.stop_selected_instance now (.error msg) e l).boost_refresh_until_stable
        = a.boost_refresh_until_stable) ∧
    (∀ (a : App) (id : String) (now : Int)
        (e : Except String (List Ec2Instance)) (l : Except String (List LambdaFunction)),
      (a.terminate_instance id now (.ok ()) e l).boost_refresh_until_stable = true) ∧
    (∀ (a : App) (id : String) (now : Int) (msg : String)
        (e : Except String (List Ec2Instance)) (l : Except String (List LambdaFunction)),
      (a.terminate_instance id now (.error msg) e l).boost_refresh_until_stable
        = a.boost_refresh_until_stable) ∧
    (∀ (a : App) (now : Int)
        (e : Except String (List Ec2Instance)) (l : Except String (List LambdaFunction)),
      (a.refresh_data now e l).boost_refresh_until_stable
        = a.boost_refresh_until_stable) ∧
    (∀ (a : App) (now last : Int), a.boost_refresh_until_stable = true →
      a.dialog = Dialog.None → a.current_screen ≠ Screen.About →
      a.last_refresh = some last →
        a.seconds_until_refresh now
          = some (5 - ((numSeconds (now - last)).emod (2 ^ 64)).toNat)) ∧
    (∀ (a : App) (now : Int)
        (e : Except String (List Ec2Instance)) (l : Except String (List LambdaFunction)),
      a.boost_refresh_until_stable = true → a.all_instances_stable = true →
      a.dialog = Dialog.None → a.current_screen ≠ Screen.About →
        (a.check_auto_refresh now e l).boost_refresh_until_stable = false) := by
  refine ⟨?_, ?_, ?_, ?_, ?_, ?_, ?_, ?_, ?_⟩
  · intro a now inst e l h
    rw [List.get?_eq_getElem?] at h
    simp [App.start_selected_instance, h, App.issue, App.add_toast, App.log_push,
      App.activate_boost_refresh, refresh_data_boost]
  · intro a now msg e l
    cases h : a.ec2_instances[a.ec2_selected]? <;>
      simp [App.start_selected_instance, h, App.issue, App.add_toast, App.log_push]
  · intro a now inst e l h
    rw [List.get?_eq_getElem?] at h
    simp [App.stop_selected_instance, h, App.issue, App.add_toast, App.log_push,
      App.activate_boost_refresh, refresh_data_boost]
  · intro a now msg e l
    cases h : a.ec2_instances[a.ec2_selected]? <;>
      simp [App.stop_selected_instance, h, App.issue, App.add_toast, App.log_push]
  · intro a id now e l
    simp [App.terminate_instance, App.issue, App.add_toast, App.log_push,
      App.activate_boost_refresh, refresh_data_boost]
  · intro a id now msg e l
    simp [App.terminate_instance, App.issue, App.add_toast, App.log_push]
  · intro a now e l
    exact refresh_data_boost a now e l
  · intro a now last hboost hdlg hscr hlast
    simp [App.seconds_until_refresh, hboost, hdlg, hscr, hlast]
  · intro a now e l hboost hstable hdlg hscr
    unfold App.check_auto_refresh
    have h1 := (cleanup_old_toasts_frame a now).1
    have h2 := (cleanup_old_toasts_frame a now).2.2.1
    simp only [hdlg, hscr]
    simp [h1, h2, hboost, hstable, refresh_data_boost]
    split_ifs <;> simp [refresh_data_boost]

/-- C7 witness: a successful Start on a valid selection sets the boost flag;
a subsequent check with all instances stable clears it. -/
theorem c7_boost_refresh_mode_witness :
    ((c4App.start_selected_instance 0 (.ok ()) (.ok [sampleInstance]) (.ok [])
      ).boost_refresh_until_stable = true) ∧
    ((({ c4App with boost_refresh_until_stable := true
       } : App).check_auto_refresh 0 (.ok []) (.ok [])).boost_refresh_until_stable
      = false) := by
  constructor
  · exact c7_boost_refresh_mode.1 c4App 0 sampleInstance (.ok [sampleInstance]) (.ok [])
      (by decide)
  · exact c7_boost_refresh_mode.2.2.2.2.2.2.2.2 _ 0 (.ok []) (.ok [])
      rfl (by decide) rfl (by decide)

/-- C8: `schedule_auto_stop` keeps at most one schedule entry per instance
id: after scheduling, exactly one entry for that id remains (carrying the
new stop time `now + duration`), entries for other ids are untouched, and
scheduling the same id twice leaves exactly one entry carrying the later
call's stop time. -/
theorem c8_schedule_auto_stop_replaces :
    (∀ (a a' : App) (instance_id : String) (dur : Nat) (now : Int),
      a.schedule_auto_stop instance_id dur now = .ok a' →
        a'.auto_stop_schedules.filter (fun p : String × Int => p.1 == instance_id)
          = [(instance_id, now + (dur : Int) * 1000)] ∧
        a'.auto_stop_schedules.filter (fun p : String × Int => p.1 != instance_id)
          = a.auto_stop_schedules.filter (fun p : String × Int => p.1 != instance_id)) ∧
    (∀ (a a1 a2 : App) (instance_id : String) (d1 d2 : Nat) (t1 t2 : Int),
      a.schedule_auto_stop instance_id d1 t1 = .ok a1 →
      a1.schedule_auto_stop instance_id d2 t2 = .ok a2 →
        a2.auto_stop_schedules.filter (fun p : String × Int => p.1 == instance_id)
          = [(instance_id, t2 + (d2 : Int) * 1000)]) := by
  have main : ∀ (a a' : App) (instance_id : String) (dur : Nat) (now : Int),
      a.schedule_auto_stop instance_id dur now = .ok a' →
        a'.auto_stop_schedules.filter (fun p : String × Int => p.1 == instance_id)
          = [(instance_id, now + (dur : Int) * 1000)] ∧
        a'.auto_stop_schedules.filter (fun p : String × Int => p.1 != instance_id)
          = a.auto_stop_schedules.filter (fun p : String × Int => p.1 != instance_id) := by
    intro a a' instance_id dur now h
    unfold App.schedule_auto_stop at h
    cases hd : durationFromStdSecs dur with
    | none => rw [hd] at h; exact absurd h (by simp)
    | some dms =>
      rw [hd] at h
      have hdms : dms = (dur : Int) * 1000 := by
        unfold durationFromStdSecs at hd
        split at hd
        · injection hd with hd; exact hd.symm
        · exact absurd hd (by simp)
      injection h with h
      subst h
      subst hdms
      constructor
      · simp [App.add_toast, App.log_push, List.filter_append, List.filter_filter]
      · simp [App.add_toast, App.log_push, List.filter_append, List.filter_filter]
  refine ⟨main, ?_⟩
  intro a a1 a2 instance_id d1 d2 t1 t2 _ h2
  exact (main a1 a2 instance_id d2 t2 h2).1

/-- First concrete scheduling step: `i-9` for 60s at `t = 0`. -/
def c8App1 : App :=
  match sampleApp.schedule_auto_stop "i-9" 60 0 with
  | .ok x => x
  | .error _ => sampleApp

/-- Second concrete scheduling step: `i-9` again for 120s at `t = 5000`. -/
def c8App2 : App :=
  match c8App1.schedule_auto_stop "i-9" 120 5000 with
  | .ok x => x
  | .error _ => c8App1

/-- C8 witness: scheduling `i-9` twice leaves exactly one entry with the
second call's stop time. -/
theorem c8_schedule_auto_stop_replaces_witness :
    c8App2.auto_stop_schedules.filter (fun p : String × Int => p.1 == "i-9")
      = [("i-9", 5000 + (120 : Int) * 1000)] :=
  c8_schedule_auto_stop_replaces.2 sampleApp c8App1 c8App2 "i-9" 60 120 0 5000
    (by rfl) (by rfl)

/-- Settings dialog opened on the state tracking one running instance. -/
def c1Opened : App := c4App.open_settings_dialog

/-- Cursor moved down three fields to `AlertThreshold`. -/
def c1AtThreshold : App :=
  ((c1Opened.navigate_settings_field false).navigate_settings_field
    false).navigate_settings_field false

/-- Threshold cycled backward: 3600 → 1800 in the draft. -/
def c1Lowered : App := c1AtThreshold.modify_current_setting (-1)

/-- Cursor moved to `SoundEnabled`, sound toggled off in the draft. -/
def c1SoundOff : App := (c1Lowered.navigate_settings_field false).modify_current_setting 1

/-- Draft committed via `save_settings` at `t = 0` (file write succeeds). -/
def c1Saved : App := c1SoundOff.save_settings 0 (.ok ())

/-- C1: committing `alertThresholdSeconds = 1800` and `soundEnabled = false`
through the settings dialog does NOT change the behaviour of subsequent
`check_alerts` calls: the committed settings are updated, but `check_alerts`
reads `config.alerts` (the `AppConfig` default, fixed at 3600 s with sound
on), so an instance running 45 minutes raises no alert despite the committed
1800 s threshold, and the two-hour alert still plays the sound despite the
committed `soundEnabled = false`. -/
theorem c1_committed_settings_ignored_by_check_alerts :
    c1Saved.settings.alert_threshold_secs = 1800 ∧
    c1Saved.settings.sound_enabled = false ∧
    c1Saved.config.alerts.alert_threshold = 3600 ∧
    c1Saved.config.alerts.sound_enabled = true ∧
    (c1Saved.check_alerts 2700000).pending_alerts = [] ∧
    (c1Saved.check_alerts 2700000).sounds_played = 0 ∧
    ((c1Saved.check_alerts 2700000).check_alerts 7200001).pending_alerts
      = [alertMessage sampleInstance 7200001] ∧
    ((c1Saved.check_alerts 2700000).check_alerts 7200001).sounds_played = 1 := by
  decide
